import Mathlib

/-!
Verification of the safety-monitoring system (`health_monitor.py` and its
collaborators) against its natural-language specification.

The embedding models:
  - `SensorReading` (sensor_reading.py),
  - the abnormality scorer `calculate_abnormality` (HealthMonitor._calculate_abnormality),
  - the timed confirmation prompt `promptUserSafety` (HealthMonitor._prompt_user_safety),
  - the final safety check `finalCheckAlerts` (HealthMonitor._final_safety_check),
  - the inter-cycle wait command parser `interCycleWait` (tail of HealthMonitor._monitoring_loop),
  - one cycle of the monitoring loop `cycleStep` (body of HealthMonitor._monitoring_loop), and
  - the session-level loop `runLoop` over a list of per-cycle environments.

Python strings are embedded as `List Char`; `str.strip`, `str.split` and
`str.upper` are embedded as `pyStrip`, `pySplit` and `pyUpper`.  Interactive
input is embedded as an explicit environment value per prompt: a prompt either
times out, receives a text line, or hits an unexpected fault (the generic
`except Exception` handlers in the source).
-/

/-- One sensor sample: heart rate in bpm and a motion flag (sensor_reading.py). -/
structure SensorReading where
  heart_rate : Int
  motion_detected : Bool
deriving DecidableEq, Repr

/-- Per-reading contribution to the abnormality score, read off the body of
`HealthMonitor._calculate_abnormality`: a reading counts only when there is no
motion and the heart rate is outside [50, 80], and then scores by the
`if/elif` chain of the source. -/
def readingScore (r : SensorReading) : Nat :=
  if !r.motion_detected && (r.heart_rate < 50 || r.heart_rate > 80) then
    if r.heart_rate > 110 then 25
    else if r.heart_rate > 100 then 20
    else if r.heart_rate > 90 then 15
    else if r.heart_rate > 80 then 10
    else if r.heart_rate < 45 then 20
    else if r.heart_rate < 50 then 10
    else 0
  else 0

/-- `HealthMonitor._calculate_abnormality`: sum the per-reading contributions
over the window (a running accumulator in the source), capped at 100. -/
def calculate_abnormality (window : List SensorReading) : Nat :=
  min 100 (window.foldl (fun score r => score + readingScore r) 0)

/-- Per-reading contribution as the specification words it (§4.1 point table,
claim C2): disjoint heart-rate bands, each counted only without motion;
motion or a heart rate in [50, 80] contributes 0. -/
def readingScoreSpec (r : SensorReading) : Nat :=
  if r.motion_detected then 0
  else if r.heart_rate > 110 then 25
  else if 100 < r.heart_rate ∧ r.heart_rate ≤ 110 then 20
  else if 90 < r.heart_rate ∧ r.heart_rate ≤ 100 then 15
  else if 80 < r.heart_rate ∧ r.heart_rate ≤ 90 then 10
  else if r.heart_rate < 45 then 20
  else if 45 ≤ r.heart_rate ∧ r.heart_rate < 50 then 10
  else 0

lemma readingScore_eq_spec (r : SensorReading) :
    readingScore r = readingScoreSpec r := by
  obtain ⟨hr, m⟩ := r
  cases m <;> unfold readingScore readingScoreSpec <;> simp <;> split_ifs <;> omega

lemma foldl_score_eq_sum (w : List SensorReading) (a : Nat) :
    w.foldl (fun score r => score + readingScore r) a
      = a + (w.map readingScoreSpec).sum := by
  induction w generalizing a with
  | nil => simp
  | cons r rs ih =>
      rw [List.foldl_cons, ih, List.map_cons, List.sum_cons, readingScore_eq_spec]
      omega

lemma calculate_abnormality_eq (w : List SensorReading) :
    calculate_abnormality w = min 100 ((w.map readingScoreSpec).sum) := by
  unfold calculate_abnormality
  rw [foldl_score_eq_sum, Nat.zero_add]

lemma calculate_abnormality_le (w : List SensorReading) :
    calculate_abnormality w ≤ 100 := by
  unfold calculate_abnormality
  exact Nat.min_le_left _ _

/-! ### Python string operations -/

/-- Python strings, embedded as lists of characters. -/
abbrev PyStr := List Char

/-- Convenience coercion from a Lean string literal. -/
def toPy (s : String) : PyStr := s.data

/-- Python `str.strip()`: drop whitespace from both ends. -/
def pyStrip (s : PyStr) : PyStr :=
  ((s.dropWhile Char.isWhitespace).reverse.dropWhile Char.isWhitespace).reverse

/-- Python `str.upper()` (ASCII fragment). -/
def pyUpper (s : PyStr) : PyStr := s.map Char.toUpper

/-- Accumulator worker for `pySplit`; `acc` holds the current token reversed. -/
def splitAux : PyStr → PyStr → List PyStr
  | [], acc => if acc.isEmpty then [] else [acc.reverse]
  | c :: cs, acc =>
    if c.isWhitespace then
      if acc.isEmpty then splitAux cs [] else acc.reverse :: splitAux cs []
    else splitAux cs (c :: acc)

/-- Python `str.split()` with no argument: split on runs of whitespace,
discarding empty fragments. -/
def pySplit (s : PyStr) : List PyStr := splitAux s []

/-! ### Interactive inputs

A prompt (the ordinary confirmation prompt, the final safety check, and the
inter-cycle wait all read one line with a SIGALRM deadline) resolves with a
text line, a timeout, or an unexpected fault caught by the generic
`except Exception` handler of the source. -/

/-- Environment value for one timed `input()` call. -/
inductive PromptInput where
  | timeout : PromptInput
  | text : PyStr → PromptInput
  | fault : PromptInput
deriving DecidableEq, Repr

/-- Outcome of `HealthMonitor._prompt_user_safety`: `confirmed` embeds
`return True`, `notSafe` embeds `return False`, `removed` embeds the
`REMOVE` path (final safety check, then `SystemExit`). -/
inductive PromptOutcome where
  | confirmed : PromptOutcome
  | notSafe : PromptOutcome
  | removed : PromptOutcome
deriving DecidableEq, Repr

/-- `HealthMonitor._prompt_user_safety`: strip and split the response; an
empty response, a timeout or a fault returns `False`; with a PIN configured
the second token must match the PIN before the command token is even
examined; then `REMOVE` exits via the final check and `YES` confirms. -/
def promptUserSafety (pin : PyStr) (inp : PromptInput) : PromptOutcome :=
  match inp with
  | .timeout => .notSafe
  | .fault => .notSafe
  | .text s =>
    match pySplit (pyStrip s) with
    | [] => .notSafe
    | cmd :: rest =>
      let command := pyUpper cmd
      if pin ≠ [] then
        match rest with
        | [] => .notSafe
        | provided :: _ =>
          if provided ≠ pin then .notSafe
          else if command = toPy "REMOVE" then .removed
          else if command = toPy "YES" then .confirmed
          else .notSafe
      else
        if command = toPy "REMOVE" then .removed
        else if command = toPy "YES" then .confirmed
        else .notSafe

/-- `HealthMonitor._final_safety_check`: number of AlertSink invocations.
The check accepts exactly a response whose stripped, upper-cased text is
`YES`; a timeout or fault alerts as a precaution.  The PIN plays no role. -/
def finalCheckAlerts (inp : PromptInput) : Nat :=
  match inp with
  | .timeout => 1
  | .fault => 1
  | .text s => if pyUpper (pyStrip s) = toPy "YES" then 0 else 1

/-- Outcome of the inter-cycle wait (tail of `HealthMonitor._monitoring_loop`). -/
inductive WaitOutcome where
  | continueMonitoring : WaitOutcome
  | removeWatch : WaitOutcome
deriving DecidableEq, Repr

/-- Inter-cycle wait of `HealthMonitor._monitoring_loop` (lines 331-363):
a nonempty stripped line whose first token upper-cases to `REMOVE` ends the
session, subject to the PIN gate; an incorrect or missing PIN just continues
monitoring, as do a timeout, a fault, or any other input. -/
def interCycleWait (pin : PyStr) (inp : PromptInput) : WaitOutcome :=
  match inp with
  | .timeout => .continueMonitoring
  | .fault => .continueMonitoring
  | .text s =>
    let user_input := pyStrip s
    if user_input.isEmpty then .continueMonitoring
    else
      match pySplit user_input with
      | [] => .continueMonitoring
      | cmd :: rest =>
        if pyUpper cmd = toPy "REMOVE" then
          if pin ≠ [] then
            match rest with
            | [] => .continueMonitoring
            | provided :: _ =>
              if provided ≠ pin then .continueMonitoring else .removeWatch
          else .removeWatch
        else .continueMonitoring

/-! ### The monitoring state machine -/

/-- Mutable state of `HealthMonitor` (the fields set in `__init__` that the
monitoring loop reads and writes). -/
structure MonitorState where
  last_five_readings : List SensorReading
  awaiting_user_response : Bool
  consecutive_abnormal_after_yes : Nat
  user_previously_said_safe : Bool
  alert_sent : Bool
  last_abnormality : Option Nat
deriving DecidableEq, Repr

/-- Initial state built by `HealthMonitor.__init__`. -/
def initState : MonitorState :=
  { last_five_readings := []
    awaiting_user_response := false
    consecutive_abnormal_after_yes := 0
    user_previously_said_safe := false
    alert_sent := false
    last_abnormality := none }

/-- Window update at the top of each cycle: append the new reading, then pop
the oldest entry when the length exceeds 5. -/
def pushReading (w : List SensorReading) (r : SensorReading) : List SensorReading :=
  let w2 := w ++ [r]
  if w2.length > 5 then w2.drop 1 else w2

/-- Sharp-jump test of the tracking branch: the previous abnormality is set
and the current score exceeds it by more than `SHARP_JUMP_THRESHOLD` (20). -/
def sharpJump (last : Option Nat) (s : Nat) : Bool :=
  match last with
  | some la => decide ((20 : Int) < (s : Int) - (la : Int))
  | none => false

/-- Observable outcome of one cycle's processing (the body of
`HealthMonitor._monitoring_loop` before the inter-cycle wait):
the new state, the reported abnormality score, whether a confirmation
prompt was issued, how many times AlertSink fired, and whether the prompt
took the `REMOVE` exit (`SystemExit` propagating out of the loop). -/
structure CycleOut where
  state : MonitorState
  score : Nat
  prompted : Bool
  alerts : Nat
  removed : Bool
deriving DecidableEq, Repr

/-- One cycle of `HealthMonitor._monitoring_loop` (lines 193-322): push the
reading, report 0 while `cycle_count <= 4`, otherwise score the window and run
the awaiting / escalation / normal branches, finally storing the score in
`last_abnormality`.  `pinp` is the environment for the (at most one)
confirmation prompt the cycle may issue. -/
def cycleStep (pin : PyStr) (cycle_count : Nat) (st : MonitorState)
    (reading : SensorReading) (pinp : PromptInput) : CycleOut :=
  let window := pushReading st.last_five_readings reading
  let st0 := { st with last_five_readings := window }
  if cycle_count ≤ 4 then
    { state := st0, score := 0, prompted := false, alerts := 0, removed := false }
  else
    let abnormality := calculate_abnormality window
    if st0.awaiting_user_response then
      match promptUserSafety pin pinp with
      | .removed =>
          { state := st0, score := abnormality, prompted := true, alerts := 0,
            removed := true }
      | .confirmed =>
          { state :=
              { st0 with
                awaiting_user_response := false
                alert_sent := false
                consecutive_abnormal_after_yes := 0
                user_previously_said_safe := false
                last_abnormality := some abnormality }
            score := abnormality, prompted := true, alerts := 0, removed := false }
      | .notSafe =>
          { state :=
              { st0 with
                awaiting_user_response := false
                alert_sent := true
                consecutive_abnormal_after_yes := 0
                user_previously_said_safe := false
                last_abnormality := some abnormality }
            score := abnormality, prompted := true, alerts := 1, removed := false }
    else if 45 < abnormality then
      if st0.user_previously_said_safe then
        let sharp := sharpJump st0.last_abnormality abnormality
        let cnt := st0.consecutive_abnormal_after_yes + 1
        if sharp || decide (3 ≤ cnt) then
          match promptUserSafety pin pinp with
          | .removed =>
              { state := { st0 with consecutive_abnormal_after_yes := cnt }
                score := abnormality, prompted := true, alerts := 0, removed := true }
          | .confirmed =>
              { state :=
                  { st0 with
                    consecutive_abnormal_after_yes := 0
                    user_previously_said_safe := false
                    last_abnormality := some abnormality }
                score := abnormality, prompted := true, alerts := 0, removed := false }
          | .notSafe =>
              { state :=
                  { st0 with
                    awaiting_user_response := true
                    alert_sent := true
                    consecutive_abnormal_after_yes := 0
                    user_previously_said_safe := false
                    last_abnormality := some abnormality }
                score := abnormality, prompted := true, alerts := 1, removed := false }
        else
          { state :=
              { st0 with
                consecutive_abnormal_after_yes := cnt
                last_abnormality := some abnormality }
            score := abnormality, prompted := false, alerts := 0, removed := false }
      else
        match promptUserSafety pin pinp with
        | .removed =>
            { state := st0, score := abnormality, prompted := true, alerts := 0,
              removed := true }
        | .confirmed =>
            { state :=
                { st0 with
                  user_previously_said_safe := true
                  consecutive_abnormal_after_yes := 0
                  last_abnormality := some abnormality }
              score := abnormality, prompted := true, alerts := 0, removed := false }
        | .notSafe =>
            { state :=
                { st0 with
                  awaiting_user_response := true
                  alert_sent := true
                  user_previously_said_safe := false
                  last_abnormality := some abnormality }
              score := abnormality, prompted := true, alerts := 1, removed := false }
    else
      if st0.user_previously_said_safe then
        { state :=
            { st0 with
              consecutive_abnormal_after_yes := 0
              user_previously_said_safe := false
              last_abnormality := some abnormality }
          score := abnormality, prompted := false, alerts := 0, removed := false }
      else
        { state := { st0 with last_abnormality := some abnormality }
          score := abnormality, prompted := false, alerts := 0, removed := false }

/-- Environment for one full cycle: the sensor reading, the input line for a
confirmation prompt (if one is issued), the input line for the inter-cycle
wait, and the input line for the final safety check (if it runs this cycle). -/
structure FullEnv where
  reading : SensorReading
  promptInput : PromptInput
  waitInput : PromptInput
  finalInput : PromptInput
deriving DecidableEq, Repr

/-- Observable summary of a (prefix of a) monitoring session. -/
structure SessionResult where
  cyclesRun : Nat
  finalCheckRan : Bool
  alertCount : Nat
  endState : MonitorState
deriving DecidableEq, Repr

/-- The session loop: run cycles from the environment list until the prompt
takes the `REMOVE` exit or the inter-cycle wait accepts a `REMOVE`, each of
which runs the final safety check and stops; an exhausted environment list
just ends the trace (session still in progress). -/
def runLoop (pin : PyStr) : MonitorState → Nat → List FullEnv → SessionResult
  | st, _, [] =>
      { cyclesRun := 0, finalCheckRan := false, alertCount := 0, endState := st }
  | st, cycle_count, env :: rest =>
      let cr := cycleStep pin cycle_count st env.reading env.promptInput
      if cr.removed then
        { cyclesRun := 1, finalCheckRan := true,
          alertCount := cr.alerts + finalCheckAlerts env.finalInput,
          endState := cr.state }
      else
        match interCycleWait pin env.waitInput with
        | .removeWatch =>
            { cyclesRun := 1, finalCheckRan := true,
              alertCount := cr.alerts + finalCheckAlerts env.finalInput,
              endState := cr.state }
        | .continueMonitoring =>
            let r := runLoop pin cr.state (cycle_count + 1) rest
            { cyclesRun := 1 + r.cyclesRun, finalCheckRan := r.finalCheckRan,
              alertCount := cr.alerts + r.alertCount, endState := r.endState }

/-- State invariants of claim C7: the window holds at most 5 readings,
`awaitingResponse` and `previouslySafe` are never both set, and the
consecutive counter is 0 whenever `previouslySafe` is clear. -/
def stateInv (st : MonitorState) : Prop :=
  st.last_five_readings.length ≤ 5
  ∧ ¬ (st.awaiting_user_response = true ∧ st.user_previously_said_safe = true)
  ∧ (st.user_previously_said_safe = false → st.consecutive_abnormal_after_yes = 0)

instance (st : MonitorState) : Decidable (stateInv st) := by
  unfold stateInv
  infer_instance

/-! ### Lemmas about the string operations -/

lemma dropWhile_eq_self_of_head (p : Char → Bool) (l : PyStr)
    (h : ∀ c, l.head? = some c → p c = false) : l.dropWhile p = l := by
  cases l with
  | nil => rfl
  | cons c cs => simp [List.dropWhile_cons, h c rfl]

lemma pyStrip_eq_self (l : PyStr)
    (h1 : ∀ c, l.head? = some c → c.isWhitespace = false)
    (h2 : ∀ c, l.getLast? = some c → c.isWhitespace = false) : pyStrip l = l := by
  unfold pyStrip
  rw [dropWhile_eq_self_of_head _ _ h1]
  rw [dropWhile_eq_self_of_head _ _ (fun c hc => h2 c (by rwa [← List.head?_reverse]))]
  simp

lemma splitAux_append (t : PyStr) (rest acc : PyStr)
    (hws : ∀ c ∈ t, c.isWhitespace = false) :
    splitAux (t ++ rest) acc = splitAux rest (t.reverse ++ acc) := by
  induction t generalizing acc with
  | nil => simp
  | cons c cs ih =>
      have hc := hws c (List.mem_cons_self c cs)
      simp only [List.cons_append, splitAux, hc, Bool.false_eq_true, if_false]
      rw [List.append_eq, ih _ (fun d hd => hws d (List.mem_cons_of_mem c hd))]
      simp

lemma pySplit_single (t : PyStr) (hne : t ≠ [])
    (hws : ∀ c ∈ t, c.isWhitespace = false) : pySplit t = [t] := by
  have h := splitAux_append t [] [] hws
  rw [List.append_nil] at h
  rw [pySplit, h]
  have hrne : t.reverse.isEmpty = false := by
    cases t with
    | nil => exact absurd rfl hne
    | cons c cs => simp [List.isEmpty_iff]
  simp [splitAux, hrne]

lemma pySplit_pair (t p : PyStr) (ht : t ≠ []) (hp : p ≠ [])
    (hwt : ∀ c ∈ t, c.isWhitespace = false)
    (hwp : ∀ c ∈ p, c.isWhitespace = false) :
    pySplit (t ++ ' ' :: p) = [t, p] := by
  have h := splitAux_append t (' ' :: p) [] hwt
  rw [List.append_nil] at h
  rw [pySplit, h]
  have hrne : t.reverse.isEmpty = false := by
    cases t with
    | nil => exact absurd rfl ht
    | cons c cs => simp [List.isEmpty_iff]
  have hsp := pySplit_single p hp hwp
  rw [pySplit] at hsp
  simp [splitAux, hrne, hsp]

lemma upper_of_ws (c : Char) (h : c.isWhitespace = true) : c.toUpper = c := by
  simp only [Char.isWhitespace, Bool.or_eq_true, decide_eq_true_eq] at h
  rcases h with ((h | h) | h) | h <;> subst h <;> decide

lemma ws_upper_ne_yes (c : Char) (hw : c.isWhitespace = true) :
    c.toUpper ≠ 'Y' ∧ c.toUpper ≠ 'E' ∧ c.toUpper ≠ 'S' := by
  rw [upper_of_ws c hw]
  simp only [Char.isWhitespace, Bool.or_eq_true, decide_eq_true_eq] at hw
  rcases hw with ((h | h) | h) | h <;> subst h <;> exact ⟨by decide, by decide, by decide⟩

/-! ### Claims about the scorer and the final safety check -/

/-- Claim C2: the abnormality score of a window is deterministic and equals
the sum over its readings of the specification's point table (25 for
hr > 110, 20 for 100 < hr ≤ 110, 15 for 90 < hr ≤ 100, 10 for 80 < hr ≤ 90,
20 for hr < 45, 10 for 45 ≤ hr < 50, each counted only without motion, with
motion or 50 ≤ hr ≤ 80 contributing 0), the total capped at 100; the result
is always in [0, 100]; and the score reported during cycles 1 through 4 of a
session is 0 regardless of window content. -/
theorem claim_C2 :
    (∀ r, readingScore r = readingScoreSpec r)
    ∧ (∀ w, calculate_abnormality w = min 100 ((w.map readingScoreSpec).sum))
    ∧ (∀ w, 0 ≤ calculate_abnormality w ∧ calculate_abnormality w ≤ 100)
    ∧ (∀ pin cycle_count st r pinp, cycle_count ≤ 4 →
        (cycleStep pin cycle_count st r pinp).score = 0) := by
  refine ⟨readingScore_eq_spec, calculate_abnormality_eq,
    fun w => ⟨Nat.zero_le _, calculate_abnormality_le w⟩, ?_⟩
  intro pin cycle_count st r pinp hcc
  simp [cycleStep, hcc]

/-- Witness for C2 at a concrete collecting-phase cycle. -/
theorem claim_C2_witness :
    (cycleStep [] 1 initState ⟨120, false⟩ .timeout).score = 0 :=
  claim_C2.2.2.2 [] 1 initState ⟨120, false⟩ .timeout (by decide)

/-- Claim C4: the Final Safety Check fires AlertSink exactly once unless it
receives an explicit YES: its alert count is 0 iff the input is a text line
whose stripped, upper-cased form is exactly YES, and in every other case
(timeout, fault, other text) the alert count is exactly 1. -/
theorem claim_C4 (inp : PromptInput) :
    (finalCheckAlerts inp = 0
      ↔ ∃ s, inp = .text s ∧ pyUpper (pyStrip s) = toPy "YES")
    ∧ (¬ (∃ s, inp = .text s ∧ pyUpper (pyStrip s) = toPy "YES") →
        finalCheckAlerts inp = 1) := by
  cases inp with
  | timeout => simp [finalCheckAlerts]
  | fault => simp [finalCheckAlerts]
  | text s =>
      by_cases h : pyUpper (pyStrip s) = toPy "YES" <;>
        simp [finalCheckAlerts, h]

/-- Witness for C4: an explicit (lower-case, padded) YES sends no alert; a
timeout sends exactly one. -/
theorem claim_C4_witness :
    finalCheckAlerts (.text (toPy " yes ")) = 0
    ∧ finalCheckAlerts .timeout = 1 := by
  constructor
  · exact (claim_C4 (.text (toPy " yes "))).1.mpr ⟨toPy " yes ", rfl, by decide⟩
  · exact (claim_C4 .timeout).2 (by rintro ⟨s, h, -⟩; cases h)

/-- Claim C10: the Final Safety Check ignores the configured PIN entirely:
any text whose stripped upper-cased form is YES is accepted with no alert
(so a bare YES in any letter case with surrounding whitespace passes);
any text that splits into two or more tokens is treated as non-YES and
alerts; in particular, for every configured PIN, the exact format
"YES pin" that the ordinary confirmation prompt requires is accepted by
that prompt yet causes the final check to alert. -/
theorem claim_C10 :
    (∀ s, pyUpper (pyStrip s) = toPy "YES" → finalCheckAlerts (.text s) = 0)
    ∧ (∀ s, 2 ≤ (pySplit (pyStrip s)).length → finalCheckAlerts (.text s) = 1)
    ∧ (∀ pin : PyStr, pin ≠ [] → (∀ c ∈ pin, c.isWhitespace = false) →
        promptUserSafety pin (.text (toPy "YES" ++ ' ' :: pin)) = .confirmed
        ∧ finalCheckAlerts (.text (toPy "YES" ++ ' ' :: pin)) = 1) := by
  have hstrip : ∀ pin : PyStr, pin ≠ [] → (∀ c ∈ pin, c.isWhitespace = false) →
      pyStrip (toPy "YES" ++ ' ' :: pin) = toPy "YES" ++ ' ' :: pin := by
    intro pin hne hws
    apply pyStrip_eq_self
    · intro c hc
      simp only [toPy] at hc
      simp only [List.cons_append, List.head?_cons, Option.some_inj] at hc
      subst hc
      decide
    · intro c hc
      rw [List.getLast?_append_of_ne_nil _ (by simp)] at hc
      have : (' ' :: pin).getLast? = pin.getLast? := by
        cases pin with
        | nil => exact absurd rfl hne
        | cons d ds => simp [List.getLast?_cons_cons]
      rw [this] at hc
      obtain ⟨hlne, heq⟩ := List.mem_getLast?_eq_getLast (by simpa using hc)
      exact hws c (heq ▸ List.getLast_mem hlne)
  refine ⟨?_, ?_, ?_⟩
  · intro s h
    simp [finalCheckAlerts, h]
  · intro s h2
    simp only [finalCheckAlerts]
    rw [if_neg]
    intro heq
    have hlen : (pyStrip s).length = 3 := by
      have := congrArg List.length heq
      simpa [pyUpper, toPy] using this
    obtain ⟨a, b, c, hx⟩ := List.length_eq_three.mp hlen
    rw [hx] at heq
    simp only [pyUpper, toPy, List.map_cons, List.map_nil] at heq
    have ha : a.toUpper = 'Y' := by injection heq
    have hrest := heq
    have hb : b.toUpper = 'E' := by
      injection hrest with h1 h2x
      injection h2x
    have hc : c.toUpper = 'S' := by
      injection hrest with h1 h2x
      injection h2x with h3 h4x
      injection h4x
    have hwa : a.isWhitespace = false := by
      cases hh : a.isWhitespace
      · rfl
      · exact absurd ha (ws_upper_ne_yes a hh).1
    have hwb : b.isWhitespace = false := by
      cases hh : b.isWhitespace
      · rfl
      · exact absurd hb (ws_upper_ne_yes b hh).2.1
    have hwc : c.isWhitespace = false := by
      cases hh : c.isWhitespace
      · rfl
      · exact absurd hc (ws_upper_ne_yes c hh).2.2
    have hsingle : pySplit (pyStrip s) = [pyStrip s] := by
      apply pySplit_single
      · rw [hx]; simp
      · rw [hx]
        intro d hd
        rcases List.mem_cons.mp hd with h | hd
        · exact h ▸ hwa
        rcases List.mem_cons.mp hd with h | hd
        · exact h ▸ hwb
        rcases List.mem_cons.mp hd with h | hd
        · exact h ▸ hwc
        · simp at hd
    rw [hsingle] at h2
    simp at h2
  · intro pin hne hws
    have hst := hstrip pin hne hws
    have hsplit : pySplit (toPy "YES" ++ ' ' :: pin) = [toPy "YES", pin] :=
      pySplit_pair _ _ (by decide) hne (by decide) hws
    constructor
    · simp only [promptUserSafety, hst, hsplit]
      simp only [hne, ne_eq, not_false_iff, if_true]
      decide
    · simp only [finalCheckAlerts, hst]
      rw [if_neg]
      intro heq
      have := congrArg List.length heq
      simp only [pyUpper, toPy, List.length_map, List.length_append,
        List.length_cons] at this
      have hplen : 0 < pin.length := List.length_pos.mpr hne
      omega

/-- Witness for C10 at the concrete PIN 1234. -/
theorem claim_C10_witness :
    promptUserSafety (toPy "1234") (.text (toPy "YES" ++ ' ' :: toPy "1234"))
        = .confirmed
    ∧ finalCheckAlerts (.text (toPy "YES" ++ ' ' :: toPy "1234")) = 1
    ∧ finalCheckAlerts (.text (toPy " yes ")) = 0 :=
  ⟨(claim_C10.2.2 (toPy "1234") (by decide) (by decide)).1,
   (claim_C10.2.2 (toPy "1234") (by decide) (by decide)).2,
   claim_C10.1 (toPy " yes ") (by decide)⟩

/-! ### Branch characterizations of one monitoring cycle -/

lemma cycleStep_collecting_eq (pin : PyStr) (cc : Nat) (st : MonitorState)
    (r : SensorReading) (pinp : PromptInput) (hcc : cc ≤ 4) :
    cycleStep pin cc st r pinp =
      { state := { st with last_five_readings := pushReading st.last_five_readings r }
        score := 0, prompted := false, alerts := 0, removed := false } := by
  simp [cycleStep, hcc]

lemma cycleStep_awaiting_eq (pin : PyStr) (cc : Nat) (st : MonitorState)
    (r : SensorReading) (pinp : PromptInput)
    (hcc : 4 < cc) (haw : st.awaiting_user_response = true) :
    cycleStep pin cc st r pinp =
      (let w := pushReading st.last_five_readings r
       let s := calculate_abnormality w
       match promptUserSafety pin pinp with
       | .removed =>
           { state := { st with last_five_readings := w }
             score := s, prompted := true, alerts := 0, removed := true }
       | .confirmed =>
           { state :=
               { st with
                 last_five_readings := w
                 awaiting_user_response := false
                 alert_sent := false
                 consecutive_abnormal_after_yes := 0
                 user_previously_said_safe := false
                 last_abnormality := some s }
             score := s, prompted := true, alerts := 0, removed := false }
       | .notSafe =>
           { state :=
               { st with
                 last_five_readings := w
                 awaiting_user_response := false
                 alert_sent := true
                 consecutive_abnormal_after_yes := 0
                 user_previously_said_safe := false
                 last_abnormality := some s }
             score := s, prompted := true, alerts := 1, removed := false }) := by
  simp only [cycleStep]
  rw [if_neg (by omega : ¬ cc ≤ 4)]
  simp only [haw, if_true]

lemma cycleStep_tracking_eq (pin : PyStr) (cc : Nat) (st : MonitorState)
    (r : SensorReading) (pinp : PromptInput)
    (hcc : 4 < cc) (haw : st.awaiting_user_response = false)
    (hps : st.user_previously_said_safe = true)
    (hs : 45 < calculate_abnormality (pushReading st.last_five_readings r)) :
    cycleStep pin cc st r pinp =
      (let w := pushReading st.last_five_readings r
       let s := calculate_abnormality w
       let sharp := sharpJump st.last_abnormality s
       let cnt := st.consecutive_abnormal_after_yes + 1
       if sharp || decide (3 ≤ cnt) then
         match promptUserSafety pin pinp with
         | .removed =>
             { state :=
                 { st with
                   last_five_readings := w
                   consecutive_abnormal_after_yes := cnt }
               score := s, prompted := true, alerts := 0, removed := true }
         | .confirmed =>
             { state :=
                 { st with
                   last_five_readings := w
                   consecutive_abnormal_after_yes := 0
                   user_previously_said_safe := false
                   last_abnormality := some s }
               score := s, prompted := true, alerts := 0, removed := false }
         | .notSafe =>
             { state :=
                 { st with
                   last_five_readings := w
                   awaiting_user_response := true
                   alert_sent := true
                   consecutive_abnormal_after_yes := 0
                   user_previously_said_safe := false
                   last_abnormality := some s }
               score := s, prompted := true, alerts := 1, removed := false }
       else
         { state :=
             { st with
               last_five_readings := w
               consecutive_abnormal_after_yes := cnt
               last_abnormality := some s }
           score := s, prompted := false, alerts := 0, removed := false }) := by
  simp only [cycleStep]
  rw [if_neg (by omega : ¬ cc ≤ 4)]
  simp only [haw, hps, Bool.false_eq_true, if_false, if_true]
  rw [if_pos hs]

lemma cycleStep_first_eq (pin : PyStr) (cc : Nat) (st : MonitorState)
    (r : SensorReading) (pinp : PromptInput)
    (hcc : 4 < cc) (haw : st.awaiting_user_response = false)
    (hps : st.user_previously_said_safe = false)
    (hs : 45 < calculate_abnormality (pushReading st.last_five_readings r)) :
    cycleStep pin cc st r pinp =
      (let w := pushReading st.last_five_readings r
       let s := calculate_abnormality w
       match promptUserSafety pin pinp with
       | .removed =>
           { state := { st with last_five_readings := w }
             score := s, prompted := true, alerts := 0, removed := true }
       | .confirmed =>
           { state :=
               { st with
                 last_five_readings := w
                 user_previously_said_safe := true
                 consecutive_abnormal_after_yes := 0
                 last_abnormality := some s }
             score := s, prompted := true, alerts := 0, removed := false }
       | .notSafe =>
           { state :=
               { st with
                 last_five_readings := w
                 awaiting_user_response := true
                 alert_sent := true
                 user_previously_said_safe := false
                 last_abnormality := some s }
             score := s, prompted := true, alerts := 1, removed := false }) := by
  simp only [cycleStep]
  rw [if_neg (by omega : ¬ cc ≤ 4)]
  simp only [haw, hps, Bool.false_eq_true, if_false]
  rw [if_pos hs]

lemma cycleStep_normal_eq (pin : PyStr) (cc : Nat) (st : MonitorState)
    (r : SensorReading) (pinp : PromptInput)
    (hcc : 4 < cc) (haw : st.awaiting_user_response = false)
    (hs : ¬ 45 < calculate_abnormality (pushReading st.last_five_readings r)) :
    cycleStep pin cc st r pinp =
      (let w := pushReading st.last_five_readings r
       let s := calculate_abnormality w
       if st.user_previously_said_safe then
         { state :=
             { st with
               last_five_readings := w
               consecutive_abnormal_after_yes := 0
               user_previously_said_safe := false
               last_abnormality := some s }
           score := s, prompted := false, alerts := 0, removed := false }
       else
         { state :=
             { st with
               last_five_readings := w
               last_abnormality := some s }
           score := s, prompted := false, alerts := 0, removed := false }) := by
  simp only [cycleStep]
  rw [if_neg (by omega : ¬ cc ≤ 4)]
  simp only [haw, Bool.false_eq_true, if_false]
  rw [if_neg hs]

/-! ### Window lemmas -/

lemma pushReading_length_le (w : List SensorReading) (r : SensorReading)
    (h : w.length ≤ 5) : (pushReading w r).length ≤ 5 := by
  simp only [pushReading]
  split_ifs with hl
  · simp only [List.length_drop, List.length_append, List.length_cons,
      List.length_nil]
    omega
  · simp only [List.length_append, List.length_cons, List.length_nil] at hl
    simp only [List.length_append, List.length_cons, List.length_nil]
    omega

lemma pushReading_drop (w : List SensorReading) (r : SensorReading) :
    ∃ k, pushReading w r = (w ++ [r]).drop k := by
  simp only [pushReading]
  split_ifs with hl
  · exact ⟨1, rfl⟩
  · exact ⟨0, (List.drop_zero _).symm⟩

lemma pushReading_getLast (w : List SensorReading) (r : SensorReading) :
    (pushReading w r).getLast? = some r := by
  simp only [pushReading]
  split_ifs with hl
  · cases w with
    | nil => simp at hl
    | cons a as =>
        simp only [List.cons_append, List.drop_succ_cons, List.drop_zero]
        exact List.getLast?_concat _
  · exact List.getLast?_concat _

lemma cycleStep_window (pin : PyStr) (cc : Nat) (st : MonitorState)
    (r : SensorReading) (pinp : PromptInput) :
    (cycleStep pin cc st r pinp).state.last_five_readings
      = pushReading st.last_five_readings r := by
  simp only [cycleStep]
  split_ifs <;> first
    | rfl
    | (cases promptUserSafety pin pinp <;> rfl)

lemma cycleStep_score (pin : PyStr) (cc : Nat) (st : MonitorState)
    (r : SensorReading) (pinp : PromptInput) (hcc : 4 < cc) :
    (cycleStep pin cc st r pinp).score
      = calculate_abnormality (pushReading st.last_five_readings r) := by
  simp only [cycleStep]
  rw [if_neg (by omega : ¬ cc ≤ 4)]
  split_ifs <;> first
    | rfl
    | (cases promptUserSafety pin pinp <;> rfl)

lemma cycleStep_tracking_noprompt (pin : PyStr) (cc : Nat) (st : MonitorState)
    (r : SensorReading) (pinp : PromptInput)
    (hcc : 4 < cc) (haw : st.awaiting_user_response = false)
    (hps : st.user_previously_said_safe = true)
    (hs : 45 < calculate_abnormality (pushReading st.last_five_readings r))
    (hsharp : sharpJump st.last_abnormality
        (calculate_abnormality (pushReading st.last_five_readings r)) = false)
    (hcnt : st.consecutive_abnormal_after_yes + 1 < 3) :
    cycleStep pin cc st r pinp =
      { state :=
          { st with
            last_five_readings := pushReading st.last_five_readings r
            consecutive_abnormal_after_yes := st.consecutive_abnormal_after_yes + 1
            last_abnormality :=
              some (calculate_abnormality (pushReading st.last_five_readings r)) }
        score := calculate_abnormality (pushReading st.last_five_readings r)
        prompted := false, alerts := 0, removed := false } := by
  rw [cycleStep_tracking_eq pin cc st r pinp hcc haw hps hs]
  dsimp only
  rw [if_neg]
  simp only [hsharp, Bool.false_or, decide_eq_true_eq]
  omega

lemma cycleStep_tracking_prompted (pin : PyStr) (cc : Nat) (st : MonitorState)
    (r : SensorReading) (pinp : PromptInput)
    (hcc : 4 < cc) (haw : st.awaiting_user_response = false)
    (hps : st.user_previously_said_safe = true)
    (hs : 45 < calculate_abnormality (pushReading st.last_five_readings r))
    (hcond : sharpJump st.last_abnormality
          (calculate_abnormality (pushReading st.last_five_readings r)) = true
        ∨ 3 ≤ st.consecutive_abnormal_after_yes + 1) :
    (cycleStep pin cc st r pinp).prompted = true := by
  rw [cycleStep_tracking_eq pin cc st r pinp hcc haw hps hs]
  dsimp only
  rw [if_pos]
  · cases promptUserSafety pin pinp <;> rfl
  · simp only [Bool.or_eq_true, decide_eq_true_eq]
    exact hcond

/-- Claim C1: in a post-collecting cycle with `previouslySafe` set, no pending
re-ask, and a score above 45: a sharp jump holds iff the previous abnormality
is set and exceeded by more than 20; a confirmation prompt is issued iff a
sharp jump was detected or the incremented counter reaches 3; on the first two
consecutive abnormal cycles with no sharp jump, no prompt is issued and all
state except the counter, the window, and `lastAbnormality` persists
unchanged; consequently three consecutive abnormal no-jump cycles after a
safe confirmation prompt exactly on the third. -/
theorem claim_C1 (pin : PyStr) (cc : Nat) (st : MonitorState)
    (r : SensorReading) (pinp : PromptInput)
    (hcc : 4 < cc) (haw : st.awaiting_user_response = false)
    (hps : st.user_previously_said_safe = true)
    (hs : 45 < calculate_abnormality (pushReading st.last_five_readings r)) :
    ((cycleStep pin cc st r pinp).prompted = true
      ↔ (sharpJump st.last_abnormality
            (calculate_abnormality (pushReading st.last_five_readings r)) = true
          ∨ 3 ≤ st.consecutive_abnormal_after_yes + 1))
    ∧ (sharpJump st.last_abnormality
          (calculate_abnormality (pushReading st.last_five_readings r)) = true
        ↔ ∃ la, st.last_abnormality = some la
            ∧ (20 : Int)
                < (calculate_abnormality (pushReading st.last_five_readings r) : Int)
                    - (la : Int))
    ∧ (sharpJump st.last_abnormality
          (calculate_abnormality (pushReading st.last_five_readings r)) = false →
        st.consecutive_abnormal_after_yes + 1 < 3 →
        cycleStep pin cc st r pinp =
          { state :=
              { st with
                last_five_readings := pushReading st.last_five_readings r
                consecutive_abnormal_after_yes :=
                  st.consecutive_abnormal_after_yes + 1
                last_abnormality :=
                  some (calculate_abnormality (pushReading st.last_five_readings r)) }
            score := calculate_abnormality (pushReading st.last_five_readings r)
            prompted := false, alerts := 0, removed := false })
    ∧ (∀ (st1 : MonitorState) (r1 r2 r3 : SensorReading)
          (q1 q2 q3 : PromptInput) (cc1 : Nat),
        4 < cc1 → st1.awaiting_user_response = false →
        st1.user_previously_said_safe = true →
        st1.consecutive_abnormal_after_yes = 0 →
        45 < (cycleStep pin cc1 st1 r1 q1).score →
        sharpJump st1.last_abnormality (cycleStep pin cc1 st1 r1 q1).score = false →
        45 < (cycleStep pin (cc1 + 1) (cycleStep pin cc1 st1 r1 q1).state r2 q2).score →
        sharpJump (cycleStep pin cc1 st1 r1 q1).state.last_abnormality
          (cycleStep pin (cc1 + 1) (cycleStep pin cc1 st1 r1 q1).state r2 q2).score
            = false →
        45 < (cycleStep pin (cc1 + 2)
            (cycleStep pin (cc1 + 1) (cycleStep pin cc1 st1 r1 q1).state r2 q2).state
            r3 q3).score →
        sharpJump
          (cycleStep pin (cc1 + 1)
            (cycleStep pin cc1 st1 r1 q1).state r2 q2).state.last_abnormality
          (cycleStep pin (cc1 + 2)
            (cycleStep pin (cc1 + 1) (cycleStep pin cc1 st1 r1 q1).state r2 q2).state
            r3 q3).score = false →
        (cycleStep pin cc1 st1 r1 q1).prompted = false
        ∧ (cycleStep pin (cc1 + 1)
            (cycleStep pin cc1 st1 r1 q1).state r2 q2).prompted = false
        ∧ (cycleStep pin (cc1 + 2)
            (cycleStep pin (cc1 + 1) (cycleStep pin cc1 st1 r1 q1).state r2 q2).state
            r3 q3).prompted = true) := by
  refine ⟨?_, ?_, ?_, ?_⟩
  · constructor
    · intro hp
      by_contra hno
      push_neg at hno
      obtain ⟨hsh, hct⟩ := hno
      have hsharp : sharpJump st.last_abnormality
          (calculate_abnormality (pushReading st.last_five_readings r)) = false := by
        cases hsj : sharpJump st.last_abnormality
            (calculate_abnormality (pushReading st.last_five_readings r))
        · rfl
        · exact absurd hsj hsh
      rw [cycleStep_tracking_noprompt pin cc st r pinp hcc haw hps hs hsharp
        (by omega)] at hp
      simp at hp
    · exact cycleStep_tracking_prompted pin cc st r pinp hcc haw hps hs
  · unfold sharpJump
    cases hla : st.last_abnormality with
    | none => simp
    | some la => simp
  · intro hsharp hcnt
    exact cycleStep_tracking_noprompt pin cc st r pinp hcc haw hps hs hsharp hcnt
  · intro st1 r1 r2 r3 q1 q2 q3 cc1 hcc1 haw1 hps1 hcnt1 h45a hsha h45b hshb h45c hshc
    rw [cycleStep_score pin cc1 st1 r1 q1 hcc1] at h45a hsha
    have ho1 := cycleStep_tracking_noprompt pin cc1 st1 r1 q1 hcc1 haw1 hps1 h45a
      hsha (by omega)
    rw [ho1] at h45b hshb h45c hshc ⊢
    dsimp only at h45b hshb h45c hshc ⊢
    rw [cycleStep_score pin (cc1 + 1) _ r2 q2 (by omega)] at h45b hshb
    dsimp only at h45b hshb
    have ho2 := cycleStep_tracking_noprompt pin (cc1 + 1)
      { st1 with
        last_five_readings := pushReading st1.last_five_readings r1
        consecutive_abnormal_after_yes := st1.consecutive_abnormal_after_yes + 1
        last_abnormality :=
          some (calculate_abnormality (pushReading st1.last_five_readings r1)) }
      r2 q2 (by omega) haw1 hps1 h45b hshb (by dsimp only; omega)
    rw [ho2] at h45c hshc ⊢
    dsimp only at h45c hshc ⊢
    rw [cycleStep_score pin (cc1 + 2) _ r3 q3 (by omega)] at h45c hshc
    dsimp only at h45c hshc
    refine ⟨rfl, rfl, ?_⟩
    refine cycleStep_tracking_prompted pin (cc1 + 2) _ r3 q3 (by omega) ?_ ?_ ?_ ?_
    · exact haw1
    · exact hps1
    · exact h45c
    · exact Or.inr (by dsimp only; omega)

/-- Witness for C1: with the tracking state fresh from a safe confirmation and a
steady score of 75 (no sharp jump), the first consecutive abnormal cycle
issues no prompt. -/
theorem claim_C1_witness :
    (cycleStep [] 5
        { last_five_readings := List.replicate 5 ⟨95, false⟩
          awaiting_user_response := false
          consecutive_abnormal_after_yes := 0
          user_previously_said_safe := true
          alert_sent := false
          last_abnormality := some 75 }
        ⟨95, false⟩ .timeout).prompted = false := by
  have h := (claim_C1 [] 5
      { last_five_readings := List.replicate 5 ⟨95, false⟩
        awaiting_user_response := false
        consecutive_abnormal_after_yes := 0
        user_previously_said_safe := true
        alert_sent := false
        last_abnormality := some 75 }
      ⟨95, false⟩ .timeout (by decide) rfl rfl (by decide)).2.2.1
      (by decide) (by decide)
  rw [h]

/-- Claim C3: a post-collecting cycle that starts with `awaitingResponse` set
re-issues the confirmation prompt regardless of the score and runs none of the
threshold logic: on a confirmed response the cycle clears `awaitingResponse`,
`alertSent` and `previouslySafe` and zeroes the counter with no alert; on a
non-confirmed response AlertSink fires once, `alertSent` is set, and
`awaitingResponse`, the counter and `previouslySafe` are cleared; in both
cases `awaitingResponse` is false at the end of the cycle. -/
theorem claim_C3 (pin : PyStr) (cc : Nat) (st : MonitorState)
    (r : SensorReading) (pinp : PromptInput)
    (hcc : 4 < cc) (haw : st.awaiting_user_response = true) :
    ((cycleStep pin cc st r pinp).prompted = true)
    ∧ (promptUserSafety pin pinp = .confirmed →
        cycleStep pin cc st r pinp =
          { state :=
              { st with
                last_five_readings := pushReading st.last_five_readings r
                awaiting_user_response := false
                alert_sent := false
                consecutive_abnormal_after_yes := 0
                user_previously_said_safe := false
                last_abnormality :=
                  some (calculate_abnormality (pushReading st.last_five_readings r)) }
            score := calculate_abnormality (pushReading st.last_five_readings r)
            prompted := true, alerts := 0, removed := false })
    ∧ (promptUserSafety pin pinp = .notSafe →
        cycleStep pin cc st r pinp =
          { state :=
              { st with
                last_five_readings := pushReading st.last_five_readings r
                awaiting_user_response := false
                alert_sent := true
                consecutive_abnormal_after_yes := 0
                user_previously_said_safe := false
                last_abnormality :=
                  some (calculate_abnormality (pushReading st.last_five_readings r)) }
            score := calculate_abnormality (pushReading st.last_five_readings r)
            prompted := true, alerts := 1, removed := false })
    ∧ ((cycleStep pin cc st r pinp).removed = false →
        (cycleStep pin cc st r pinp).state.awaiting_user_response = false) := by
  have he := cycleStep_awaiting_eq pin cc st r pinp hcc haw
  refine ⟨?_, ?_, ?_, ?_⟩
  · rw [he]
    dsimp only
    cases promptUserSafety pin pinp <;> rfl
  · intro hp
    rw [he]
    dsimp only
    rw [hp]
  · intro hp
    rw [he]
    dsimp only
    rw [hp]
  · rw [he]
    dsimp only
    cases promptUserSafety pin pinp <;> simp

/-- Witness for C3: with a pending re-ask and a timed-out re-prompt, the cycle
fires one alert and clears `awaitingResponse`. -/
theorem claim_C3_witness :
    (cycleStep [] 5
        { last_five_readings := List.replicate 5 ⟨95, false⟩
          awaiting_user_response := true
          consecutive_abnormal_after_yes := 0
          user_previously_said_safe := false
          alert_sent := true
          last_abnormality := some 75 }
        ⟨95, false⟩ .timeout).prompted = true := by
  exact (claim_C3 [] 5
      { last_five_readings := List.replicate 5 ⟨95, false⟩
        awaiting_user_response := true
        consecutive_abnormal_after_yes := 0
        user_previously_said_safe := false
        alert_sent := true
        last_abnormality := some 75 }
      ⟨95, false⟩ .timeout (by decide) rfl).1

/-- Claim C9: a post-collecting cycle with score at most 45 while
`previouslySafe` is set clears `previouslySafe` and zeroes the counter, issues
no prompt and no alert, and leaves `awaitingResponse` and `alertSent`
untouched; only the window and `lastAbnormality` are additionally updated. -/
theorem claim_C9 (pin : PyStr) (cc : Nat) (st : MonitorState)
    (r : SensorReading) (pinp : PromptInput)
    (hcc : 4 < cc) (haw : st.awaiting_user_response = false)
    (hps : st.user_previously_said_safe = true)
    (hs : calculate_abnormality (pushReading st.last_five_readings r) ≤ 45) :
    cycleStep pin cc st r pinp =
      { state :=
          { st with
            last_five_readings := pushReading st.last_five_readings r
            consecutive_abnormal_after_yes := 0
            user_previously_said_safe := false
            last_abnormality :=
              some (calculate_abnormality (pushReading st.last_five_readings r)) }
        score := calculate_abnormality (pushReading st.last_five_readings r)
        prompted := false, alerts := 0, removed := false } := by
  rw [cycleStep_normal_eq pin cc st r pinp hcc haw (by omega)]
  dsimp only
  rw [if_pos hps]

/-- Witness for C9: a normal score of 0 while tracking clears the tracking
state without prompting. -/
theorem claim_C9_witness :
    cycleStep [] 5
        { last_five_readings := List.replicate 5 ⟨70, false⟩
          awaiting_user_response := false
          consecutive_abnormal_after_yes := 2
          user_previously_said_safe := true
          alert_sent := false
          last_abnormality := some 50 }
        ⟨70, false⟩ .timeout =
      { state :=
          { last_five_readings := List.replicate 5 ⟨70, false⟩
            awaiting_user_response := false
            consecutive_abnormal_after_yes := 0
            user_previously_said_safe := false
            alert_sent := false
            last_abnormality := some 0 }
        score := 0, prompted := false, alerts := 0, removed := false } := by
  have h := claim_C9 [] 5
      { last_five_readings := List.replicate 5 ⟨70, false⟩
        awaiting_user_response := false
        consecutive_abnormal_after_yes := 2
        user_previously_said_safe := true
        alert_sent := false
        last_abnormality := some 50 }
      ⟨70, false⟩ .timeout (by decide) rfl rfl (by decide)
  rw [h]
  decide

/-- Claim C7: every cycle preserves the state invariants — the window keeps at
most 5 readings with the oldest evicted first and the new reading last, the
`awaitingResponse` and `previouslySafe` flags are never both set at the end of
a cycle, and the consecutive counter is 0 whenever `previouslySafe` is clear
at the end of a cycle. -/
theorem claim_C7 (pin : PyStr) (cc : Nat) (st : MonitorState)
    (r : SensorReading) (pinp : PromptInput) (hinv : stateInv st) :
    stateInv (cycleStep pin cc st r pinp).state
    ∧ (∃ k, (cycleStep pin cc st r pinp).state.last_five_readings
          = (st.last_five_readings ++ [r]).drop k)
    ∧ (cycleStep pin cc st r pinp).state.last_five_readings.getLast? = some r := by
  obtain ⟨h5, hmx, hcnt⟩ := hinv
  refine ⟨?_, ?_, ?_⟩
  · by_cases hcc : cc ≤ 4
    · rw [cycleStep_collecting_eq pin cc st r pinp hcc]
      exact ⟨pushReading_length_le _ _ h5, hmx, hcnt⟩
    · have hcc' : 4 < cc := by omega
      by_cases haw : st.awaiting_user_response = true
      · rw [cycleStep_awaiting_eq pin cc st r pinp hcc' haw]
        dsimp only
        cases promptUserSafety pin pinp <;> dsimp only
        · exact ⟨pushReading_length_le _ _ h5, by simp, by simp⟩
        · exact ⟨pushReading_length_le _ _ h5, by simp, by simp⟩
        · exact ⟨pushReading_length_le _ _ h5, hmx, hcnt⟩
      · have haw' : st.awaiting_user_response = false := by
          cases h : st.awaiting_user_response
          · rfl
          · exact absurd h haw
        by_cases hs : 45 < calculate_abnormality (pushReading st.last_five_readings r)
        · by_cases hps : st.user_previously_said_safe = true
          · rw [cycleStep_tracking_eq pin cc st r pinp hcc' haw' hps hs]
            dsimp only
            by_cases hb : (sharpJump st.last_abnormality
                  (calculate_abnormality (pushReading st.last_five_readings r))
                || decide (3 ≤ st.consecutive_abnormal_after_yes + 1)) = true
            · rw [if_pos hb]
              cases promptUserSafety pin pinp <;> dsimp only
              · exact ⟨pushReading_length_le _ _ h5, by simp, by simp⟩
              · exact ⟨pushReading_length_le _ _ h5, by simp, by simp⟩
              · exact ⟨pushReading_length_le _ _ h5, by simp [haw'], by simp [hps]⟩
            · rw [if_neg hb]
              exact ⟨pushReading_length_le _ _ h5, by simp [haw'], by simp [hps]⟩
          · have hps' : st.user_previously_said_safe = false := by
              cases h : st.user_previously_said_safe
              · rfl
              · exact absurd h hps
            rw [cycleStep_first_eq pin cc st r pinp hcc' haw' hps' hs]
            dsimp only
            cases promptUserSafety pin pinp <;> dsimp only
            · exact ⟨pushReading_length_le _ _ h5, by simp [haw'], by simp⟩
            · exact ⟨pushReading_length_le _ _ h5, by simp, fun _ => hcnt hps'⟩
            · exact ⟨pushReading_length_le _ _ h5, hmx, hcnt⟩
        · rw [cycleStep_normal_eq pin cc st r pinp hcc' haw' hs]
          dsimp only
          by_cases hps : st.user_previously_said_safe = true
          · rw [if_pos hps]
            exact ⟨pushReading_length_le _ _ h5, by simp [haw'], by simp⟩
          · rw [if_neg hps]
            exact ⟨pushReading_length_le _ _ h5, hmx, hcnt⟩
  · rw [cycleStep_window]
    exact pushReading_drop _ _
  · rw [cycleStep_window]
    exact pushReading_getLast _ _

/-- Witness for C7 at the initial state and the first cycle. -/
theorem claim_C7_witness :
    stateInv (cycleStep [] 1 initState ⟨80, false⟩ .timeout).state :=
  (claim_C7 [] 1 initState ⟨80, false⟩ .timeout (by decide)).1

/-! ### Prompt and wait parsing lemmas -/

lemma strip_not_empty_of_split (s : PyStr) (x : PyStr) (xs : List PyStr)
    (h : pySplit (pyStrip s) = x :: xs) : (pyStrip s).isEmpty = false := by
  cases hst : pyStrip s with
  | nil =>
      rw [hst] at h
      simp [pySplit, splitAux] at h
  | cons a as => rfl

lemma prompt_empty_notSafe (pin : PyStr) (s : PyStr)
    (hsp : pySplit (pyStrip s) = []) :
    promptUserSafety pin (.text s) = .notSafe := by
  unfold promptUserSafety
  dsimp only
  rw [hsp]

lemma prompt_missing_pin_notSafe (pin : PyStr) (hpin : pin ≠ []) (s : PyStr)
    (cmd : PyStr) (hsp : pySplit (pyStrip s) = [cmd]) :
    promptUserSafety pin (.text s) = .notSafe := by
  unfold promptUserSafety
  dsimp only
  rw [hsp]
  dsimp only
  rw [if_pos hpin]

lemma prompt_bad_pin_notSafe (pin : PyStr) (hpin : pin ≠ []) (s : PyStr)
    (cmd provided : PyStr) (r2 : List PyStr)
    (hsp : pySplit (pyStrip s) = cmd :: provided :: r2) (hp : provided ≠ pin) :
    promptUserSafety pin (.text s) = .notSafe := by
  unfold promptUserSafety
  dsimp only
  rw [hsp]
  dsimp only
  rw [if_pos hpin]
  rw [if_pos hp]

lemma prompt_confirmed_shape (pin : PyStr) (hpin : pin ≠ []) (inp : PromptInput)
    (h : promptUserSafety pin inp = .confirmed) :
    ∃ s cmd rest, inp = .text s
      ∧ pySplit (pyStrip s) = cmd :: pin :: rest
      ∧ pyUpper cmd = toPy "YES" := by
  cases inp with
  | timeout => simp [promptUserSafety] at h
  | fault => simp [promptUserSafety] at h
  | text s =>
      unfold promptUserSafety at h
      dsimp only at h
      cases hsp : pySplit (pyStrip s) with
      | nil =>
          rw [hsp] at h
          simp at h
      | cons cmd rest =>
          rw [hsp] at h
          dsimp only at h
          rw [if_pos hpin] at h
          cases rest with
          | nil => simp at h
          | cons provided r2 =>
              dsimp only at h
              by_cases hp : provided ≠ pin
              · rw [if_pos hp] at h
                simp at h
              · rw [if_neg hp] at h
                push_neg at hp
                subst hp
                by_cases hrm : pyUpper cmd = toPy "REMOVE"
                · rw [if_pos hrm] at h
                  simp at h
                · rw [if_neg hrm] at h
                  by_cases hys : pyUpper cmd = toPy "YES"
                  · exact ⟨s, cmd, r2, rfl, hsp, hys⟩
                  · rw [if_neg hys] at h
                    simp at h

lemma wait_remove_of_prompt_removed (pin t : PyStr)
    (h : promptUserSafety pin (.text t) = .removed) :
    interCycleWait pin (.text t) = .removeWatch := by
  unfold promptUserSafety at h
  dsimp only at h
  unfold interCycleWait
  dsimp only
  cases hsp : pySplit (pyStrip t) with
  | nil =>
      rw [hsp] at h
      simp at h
  | cons cmd rest =>
      rw [hsp] at h
      dsimp only at h
      have hne := strip_not_empty_of_split t cmd rest hsp
      simp only [hne, Bool.false_eq_true, if_false]
      by_cases hpin : pin = []
      · subst hpin
        rw [if_neg (by simp)] at h
        by_cases hrm : pyUpper cmd = toPy "REMOVE"
        · rw [if_pos hrm, if_neg (by simp)]
        · rw [if_neg hrm] at h
          split_ifs at h
      · rw [if_pos hpin] at h
        cases rest with
        | nil => simp at h
        | cons provided r2 =>
            dsimp only at h
            by_cases hp : provided ≠ pin
            · rw [if_pos hp] at h
              simp at h
            · rw [if_neg hp] at h
              push_neg at hp
              by_cases hrm : pyUpper cmd = toPy "REMOVE"
              · rw [if_pos hrm, if_pos hpin]
                dsimp only
                rw [if_neg (by simpa using hp)]
              · rw [if_neg hrm] at h
                split_ifs at h

lemma wait_bad_pin_continue (pin : PyStr) (hpin : pin ≠ []) (s : PyStr)
    (cmd : PyStr) (rest : List PyStr)
    (hsp : pySplit (pyStrip s) = cmd :: rest)
    (hbad : ∀ p r2, rest = p :: r2 → p ≠ pin) :
    interCycleWait pin (.text s) = .continueMonitoring := by
  unfold interCycleWait
  dsimp only
  have hne := strip_not_empty_of_split s cmd rest hsp
  simp only [hne, Bool.false_eq_true, if_false]
  rw [hsp]
  dsimp only
  by_cases hrm : pyUpper cmd = toPy "REMOVE"
  · rw [if_pos hrm, if_pos hpin]
    cases rest with
    | nil => rfl
    | cons provided r2 =>
        dsimp only
        rw [if_pos (hbad provided r2 rfl)]
  · rw [if_neg hrm]

/-- Claim C5: from any protocol state, a cycle whose prompt input and
inter-cycle input are both a REMOVE command that the PIN gate accepts (the
hypothesis states that the prompt resolves it to the `REMOVE` exit) ends the
session during that cycle: exactly one more cycle runs, the Final Safety Check
runs, and the remaining environment (further cycles) is never consumed. -/
theorem claim_C5 (pin : PyStr) (st : MonitorState) (cc : Nat) (t : PyStr)
    (r : SensorReading) (fin : PromptInput) (rest : List FullEnv)
    (hrem : promptUserSafety pin (.text t) = .removed) :
    (runLoop pin st cc
        ({ reading := r, promptInput := .text t, waitInput := .text t,
           finalInput := fin } :: rest)).cyclesRun = 1
    ∧ (runLoop pin st cc
        ({ reading := r, promptInput := .text t, waitInput := .text t,
           finalInput := fin } :: rest)).finalCheckRan = true := by
  have hwait := wait_remove_of_prompt_removed pin t hrem
  simp only [runLoop]
  by_cases hr : (cycleStep pin cc st r (.text t)).removed = true
  · rw [if_pos hr]
    exact ⟨rfl, rfl⟩
  · rw [if_neg hr]
    rw [hwait]
    exact ⟨rfl, rfl⟩

/-- Witness for C5: REMOVE with the correct PIN at cycle 1 of a fresh session
ends the session at once. -/
theorem claim_C5_witness :
    (runLoop (toPy "1234") initState 1
        ({ reading := ⟨80, false⟩, promptInput := .text (toPy "REMOVE 1234"),
           waitInput := .text (toPy "REMOVE 1234"),
           finalInput := .timeout } :: [])).cyclesRun = 1
    ∧ (runLoop (toPy "1234") initState 1
        ({ reading := ⟨80, false⟩, promptInput := .text (toPy "REMOVE 1234"),
           waitInput := .text (toPy "REMOVE 1234"),
           finalInput := .timeout } :: [])).finalCheckRan = true :=
  claim_C5 (toPy "1234") initState 1 (toPy "REMOVE 1234") ⟨80, false⟩
    .timeout [] (by decide)

/-- Claim C6: with a PIN configured, the confirmation prompt resolves to
`Confirmed` only when the input text splits into a first token that
upper-cases to YES and a second token equal to the configured PIN; a timeout,
a fault, an empty input, a single-token input (missing PIN), and a mismatched
second token all resolve to `Unsafe`. -/
theorem claim_C6 (pin : PyStr) (hpin : pin ≠ []) :
    (∀ inp, promptUserSafety pin inp = .confirmed →
        ∃ s cmd rest, inp = .text s
          ∧ pySplit (pyStrip s) = cmd :: pin :: rest
          ∧ pyUpper cmd = toPy "YES")
    ∧ promptUserSafety pin .timeout = .notSafe
    ∧ promptUserSafety pin .fault = .notSafe
    ∧ (∀ s, pySplit (pyStrip s) = [] →
        promptUserSafety pin (.text s) = .notSafe)
    ∧ (∀ s cmd, pySplit (pyStrip s) = [cmd] →
        promptUserSafety pin (.text s) = .notSafe)
    ∧ (∀ s cmd provided r2, pySplit (pyStrip s) = cmd :: provided :: r2 →
        provided ≠ pin → promptUserSafety pin (.text s) = .notSafe) := by
  refine ⟨fun inp h => prompt_confirmed_shape pin hpin inp h, rfl, rfl, ?_, ?_, ?_⟩
  · exact fun s hsp => prompt_empty_notSafe pin s hsp
  · exact fun s cmd hsp => prompt_missing_pin_notSafe pin hpin s cmd hsp
  · exact fun s cmd provided r2 hsp hp =>
      prompt_bad_pin_notSafe pin hpin s cmd provided r2 hsp hp

/-- Witness for C6 at the concrete PIN 1234: YES without a PIN token resolves
to an unsafe response, as does a timeout. -/
theorem claim_C6_witness :
    promptUserSafety (toPy "1234") (.text (toPy "YES")) = .notSafe
    ∧ promptUserSafety (toPy "1234") .timeout = .notSafe :=
  ⟨(claim_C6 (toPy "1234") (by decide)).2.2.2.2.1 (toPy "YES")
      (toPy "YES") (by decide),
   (claim_C6 (toPy "1234") (by decide)).2.1⟩

/-- Claim C8: with a PIN configured, a gated command with a missing or wrong
PIN is handled differently in the two contexts: at a confirmation prompt it
resolves to `Unsafe` (single token, or mismatched second token), while an
inter-cycle REMOVE whose PIN token is missing or wrong is ignored and the
loop simply continues: the next cycles run on the rest of the environment and
the inter-cycle wait adds no final check, no termination, and no alert. -/
theorem claim_C8 (pin : PyStr) (hpin : pin ≠ []) :
    (∀ s cmd, pySplit (pyStrip s) = [cmd] →
        promptUserSafety pin (.text s) = .notSafe)
    ∧ (∀ s cmd provided r2, pySplit (pyStrip s) = cmd :: provided :: r2 →
        provided ≠ pin → promptUserSafety pin (.text s) = .notSafe)
    ∧ (∀ s cmd rest, pySplit (pyStrip s) = cmd :: rest →
        pyUpper cmd = toPy "REMOVE" →
        (∀ p r2, rest = p :: r2 → p ≠ pin) →
        interCycleWait pin (.text s) = .continueMonitoring)
    ∧ (∀ (st : MonitorState) (cc : Nat) (env : FullEnv) (rest : List FullEnv),
        (cycleStep pin cc st env.reading env.promptInput).removed = false →
        interCycleWait pin env.waitInput = .continueMonitoring →
        runLoop pin st cc (env :: rest) =
          { cyclesRun := 1 + (runLoop pin
                (cycleStep pin cc st env.reading env.promptInput).state
                (cc + 1) rest).cyclesRun
            finalCheckRan := (runLoop pin
                (cycleStep pin cc st env.reading env.promptInput).state
                (cc + 1) rest).finalCheckRan
            alertCount := (cycleStep pin cc st env.reading env.promptInput).alerts
              + (runLoop pin
                  (cycleStep pin cc st env.reading env.promptInput).state
                  (cc + 1) rest).alertCount
            endState := (runLoop pin
                (cycleStep pin cc st env.reading env.promptInput).state
                (cc + 1) rest).endState }) := by
  refine ⟨?_, ?_, ?_, ?_⟩
  · exact fun s cmd hsp => prompt_missing_pin_notSafe pin hpin s cmd hsp
  · exact fun s cmd provided r2 hsp hp =>
      prompt_bad_pin_notSafe pin hpin s cmd provided r2 hsp hp
  · exact fun s cmd rest hsp hrm hbad =>
      wait_bad_pin_continue pin hpin s cmd rest hsp hbad
  · intro st cc env rest hremf hwait
    simp only [runLoop]
    rw [if_neg (by rw [hremf]; exact Bool.false_ne_true)]
    rw [hwait]

/-- Witness for C8: with PIN 1234, a bare inter-cycle REMOVE is ignored and an
inter-cycle REMOVE with a wrong PIN is ignored. -/
theorem claim_C8_witness :
    interCycleWait (toPy "1234") (.text (toPy "REMOVE")) = .continueMonitoring
    ∧ promptUserSafety (toPy "1234") (.text (toPy "YES 9999")) = .notSafe :=
  ⟨(claim_C8 (toPy "1234") (by decide)).2.2.1 (toPy "REMOVE") (toPy "REMOVE")
      [] (by decide) (by decide) (by intro p r2 hpr; simp at hpr),
   (claim_C8 (toPy "1234") (by decide)).2.1 (toPy "YES 9999") (toPy "YES")
      (toPy "9999") [] (by decide) (by decide)⟩
